import Mathlib

/-
Verification of the credential-reconciliation and Gitea-adapter slice of
the OpenHands repository. Definitions are shallow embeddings of the Python
source under openhands/server/routes/secrets.py,
openhands/storage/data_models/user_secrets.py and
openhands/integrations/gitea/. External collaborators (network calls,
storage backend) are abstracted as explicit parameters; the classes that
live outside this slice (ProviderToken, Integration, CustomSecret and the
ProviderType enum from openhands/integrations) are modelled from the spec,
as marked in their doc comments.
-/

set_option maxHeartbeats 1000000

namespace OpenHands

/-- Decimal digit list of a natural number, most significant digit first,
with explicit recursion fuel. This models the decimal rendering performed
by the Python f-string conversion str(counter) used when building the
collision-suffixed ids base-1, base-2, and so on. -/
def decDigitsAux : Nat → Nat → List Char
  | 0, _ => []
  | fuel + 1, n =>
    if n < 10 then [Nat.digitChar n]
    else decDigitsAux fuel (n / 10) ++ [Nat.digitChar (n % 10)]

/-- Decimal string of a natural number, the embedding of Python str(n) for
a non-negative integer. Fuel n + 1 is always sufficient because the
recursion argument n / 10 strictly decreases. -/
def natToDec (n : Nat) : String :=
  String.mk (decDigitsAux (n + 1) n)

theorem decDigitsAux_fuel (n : Nat) :
    ∀ f g, n < f → n < g → decDigitsAux f n = decDigitsAux g n := by
  induction n using Nat.strong_induction_on with
  | _ n ih =>
    intro f g hf hg
    cases f with
    | zero => omega
    | succ f =>
      cases g with
      | zero => omega
      | succ g =>
        simp only [decDigitsAux]
        by_cases h : n < 10
        · simp [h]
        · have hd : n / 10 < n := Nat.div_lt_self (by omega) (by omega)
          simp only [if_neg h]
          rw [ih (n / 10) hd f g (by omega) (by omega)]

theorem decDigitsAux_ne_nil {f n : Nat} (hf : 0 < f) : decDigitsAux f n ≠ [] := by
  cases f with
  | zero => omega
  | succ f =>
    simp only [decDigitsAux]
    by_cases h : n < 10
    · simp [h]
    · simp [h]

theorem digitChar_inj_lt {m n : Nat} (hm : m < 10) (hn : n < 10)
    (h : Nat.digitChar m = Nat.digitChar n) : m = n := by
  have key : ∀ a b : Fin 10, Nat.digitChar a.val = Nat.digitChar b.val → a = b := by decide
  have := key ⟨m, hm⟩ ⟨n, hn⟩ h
  exact congrArg Fin.val this

theorem decDigits_inj (m : Nat) :
    ∀ n, decDigitsAux (m + 1) m = decDigitsAux (n + 1) n → m = n := by
  induction m using Nat.strong_induction_on with
  | _ m ih =>
    intro n h
    by_cases hm : m < 10 <;> by_cases hn : n < 10
    · simp only [decDigitsAux, if_pos hm, if_pos hn] at h
      exact digitChar_inj_lt hm hn (List.head_eq_of_cons_eq h)
    · exfalso
      simp only [decDigitsAux, if_pos hm, if_neg hn] at h
      have hlen := congrArg List.length h
      simp only [List.length_cons, List.length_append, List.length_nil] at hlen
      have hne : decDigitsAux n (n / 10) ≠ [] := decDigitsAux_ne_nil (by omega)
      have : (decDigitsAux n (n / 10)).length = 0 := by omega
      exact hne (List.length_eq_zero.mp this)
    · exfalso
      simp only [decDigitsAux, if_neg hm, if_pos hn] at h
      have hlen := congrArg List.length h
      simp only [List.length_cons, List.length_append, List.length_nil] at hlen
      have hne : decDigitsAux m (m / 10) ≠ [] := decDigitsAux_ne_nil (by omega)
      have : (decDigitsAux m (m / 10)).length = 0 := by omega
      exact hne (List.length_eq_zero.mp this)
    · simp only [decDigitsAux, if_neg hm, if_neg hn] at h
      have h2 := congrArg List.reverse h
      simp only [List.reverse_append, List.reverse_cons, List.reverse_nil,
        List.nil_append, List.singleton_append] at h2
      obtain ⟨ha, hrev⟩ := List.cons.inj h2
      have hA : decDigitsAux m (m / 10) = decDigitsAux n (n / 10) := by
        have := congrArg List.reverse hrev
        simpa using this
      have hmod : m % 10 = n % 10 :=
        digitChar_inj_lt (Nat.mod_lt _ (by omega)) (Nat.mod_lt _ (by omega)) ha
      have hdiv : m / 10 = n / 10 := by
        apply ih (m / 10) (Nat.div_lt_self (by omega) (by omega))
        calc decDigitsAux (m / 10 + 1) (m / 10)
            = decDigitsAux m (m / 10) := decDigitsAux_fuel _ _ _ (by omega) (by omega)
          _ = decDigitsAux n (n / 10) := hA
          _ = decDigitsAux (n / 10 + 1) (n / 10) := decDigitsAux_fuel _ _ _ (by omega) (by omega)
      omega

theorem natToDec_injective : Function.Injective natToDec := by
  intro m n h
  have : decDigitsAux (m + 1) m = decDigitsAux (n + 1) n := by
    have := congrArg String.data h
    simpa [natToDec] using this
  exact decDigits_inj m n this

theorem natToDec_length_pos (n : Nat) : 0 < (natToDec n).length := by
  have hne : decDigitsAux (n + 1) n ≠ [] := decDigitsAux_ne_nil (by omega)
  have : 0 < (decDigitsAux (n + 1) n).length := List.length_pos.mpr hne
  simpa [natToDec, String.length] using this

/-! Integration id generation (routes/secrets.py, generate_integration_id). -/

/-- ASCII alphanumeric test, exactly the regex character class [a-zA-Z0-9]
used in generate_integration_id. -/
def isAlnumAscii (c : Char) : Bool :=
  (decide ('a' ≤ c) && decide (c ≤ 'z'))
    || (decide ('A' ≤ c) && decide (c ≤ 'Z'))
    || (decide ('0' ≤ c) && decide (c ≤ '9'))

/-- Helper for the regex substitution re.sub with pattern [^a-zA-Z0-9]+ and
replacement hyphen: scans the character list keeping alphanumerics and
emitting a single hyphen per maximal run of other characters. The flag
records whether the scanner is inside a run that was already replaced. -/
def collapseRunsAux : Bool → List Char → List Char
  | _, [] => []
  | inRun, c :: rest =>
    if isAlnumAscii c then c :: collapseRunsAux false rest
    else if inRun then collapseRunsAux true rest
    else '-' :: collapseRunsAux true rest

/-- Embedding of re.sub(r'[^a-zA-Z0-9]+', '-', s): every maximal run of
characters outside the class becomes a single hyphen. -/
def collapseRuns (l : List Char) : List Char :=
  collapseRunsAux false l

/-- Embedding of the Python str.strip with argument hyphen: removes leading
and trailing hyphens. -/
def stripHyphens (l : List Char) : List Char :=
  ((l.dropWhile (fun c => c == '-')).reverse.dropWhile (fun c => c == '-')).reverse

/-- Embedding of Python str.lower, character-wise lowering. -/
def pyLower (s : String) : String :=
  String.mk (s.data.map Char.toLower)

/-- The base_id computation of generate_integration_id: sanitize the
lower-cased name, and fall back to the lower-cased provider type when the
sanitized name is empty. -/
def baseId (name provider_type : String) : String :=
  let b := String.mk (stripHyphens (collapseRuns (pyLower name).data))
  if b = "" then pyLower provider_type else b

/-- The candidate id tried at loop counter c in generate_integration_id:
the base id itself first, then base-1, base-2, and so on. -/
def candidateId (base : String) : Nat → String
  | 0 => base
  | c + 1 => base ++ "-" ++ natToDec (c + 1)

/-- The collision-resolution while loop of generate_integration_id:
starting from counter value start, return the first candidate id that is
not among the existing ids. The fuel argument bounds the number of
iterations; findFresh_not_mem shows that fuel equal to the number of
existing ids plus one is always enough for the loop to exit with a fresh
id, so the bounded loop agrees with the unbounded source loop. -/
def findFresh (base : String) (existing : List String) : Nat → Nat → String
  | 0, start => candidateId base start
  | fuel + 1, start =>
    if candidateId base start ∈ existing then findFresh base existing fuel (start + 1)
    else candidateId base start

/-- Embedding of generate_integration_id (routes/secrets.py lines 414-434). -/
def generate_integration_id (name provider_type : String)
    (existing_ids : List String) : String :=
  findFresh (baseId name provider_type) existing_ids (existing_ids.length + 1) 0

theorem candidateId_injective (base : String) :
    Function.Injective (candidateId base) := by
  have hlen : ∀ c : Nat, base.length < (candidateId base (c + 1)).length := by
    intro c
    have h1 := natToDec_length_pos (c + 1)
    simp only [candidateId, String.length_append]
    have : ("-" : String).length = 1 := rfl
    omega
  intro a b h
  cases a with
  | zero =>
    cases b with
    | zero => rfl
    | succ b =>
      exfalso
      have := hlen b
      rw [← h] at this
      simp only [candidateId] at this
      omega
  | succ a =>
    cases b with
    | zero =>
      exfalso
      have := hlen a
      rw [h] at this
      simp only [candidateId] at this
      omega
    | succ b =>
      simp only [candidateId] at h
      have hdata := congrArg String.data h
      simp only [String.data_append] at hdata
      have h2 := List.append_cancel_left hdata
      have h4 : natToDec (a + 1) = natToDec (b + 1) := congrArg String.mk h2
      have := natToDec_injective h4
      omega

theorem findFresh_fresh (base : String) (existing : List String) :
    ∀ fuel start m, m < fuel → candidateId base (start + m) ∉ existing →
      findFresh base existing fuel start ∉ existing := by
  intro fuel
  induction fuel with
  | zero =>
    intro start m hm
    omega
  | succ fuel ih =>
    intro start m hm hfree
    simp only [findFresh]
    by_cases h : candidateId base start ∈ existing
    · simp only [if_pos h]
      cases m with
      | zero =>
        exfalso
        apply hfree
        simpa using h
      | succ m =>
        apply ih (start + 1) m (by omega)
        have harg : start + 1 + m = start + (m + 1) := by omega
        rw [harg]
        exact hfree
    · simp only [if_neg h]
      exact h

theorem exists_fresh_candidate (base : String) (existing : List String) :
    ∃ m, m ≤ existing.length ∧ candidateId base m ∉ existing := by
  by_contra hcon
  push_neg at hcon
  set l1 := (List.range (existing.length + 1)).map (candidateId base) with hl1
  have hsub : ∀ x ∈ l1, x ∈ existing := by
    intro x hx
    rw [hl1, List.mem_map] at hx
    obtain ⟨m, hm, rfl⟩ := hx
    rw [List.mem_range] at hm
    exact hcon m (by omega)
  have hnd : l1.Nodup :=
    (List.nodup_range _).map (candidateId_injective base)
  have hcard1 : l1.toFinset.card = existing.length + 1 := by
    rw [List.toFinset_card_of_nodup hnd, hl1, List.length_map, List.length_range]
  have hsubF : l1.toFinset ⊆ existing.toFinset := by
    intro x hx
    rw [List.mem_toFinset] at hx ⊢
    exact hsub x hx
  have hle := Finset.card_le_card hsubF
  have hle2 := existing.toFinset_card_le
  omega

theorem generate_integration_id_fresh (name provider_type : String)
    (existing_ids : List String) :
    generate_integration_id name provider_type existing_ids ∉ existing_ids := by
  obtain ⟨m, hm, hfree⟩ := exists_fresh_candidate (baseId name provider_type) existing_ids
  apply findFresh_fresh _ _ _ 0 m (by omega)
  simpa using hfree

/-! Credential record model. ProviderType, ProviderToken, CustomSecret and
Integration live in openhands/integrations (outside this slice), so their
shapes are modelled from the spec data model in section 3; every operation
on them below is translated from the source files in this slice. Secret
string values (pydantic SecretStr) are modelled as plain strings, with the
crucial pydantic behavior that a SecretStr is falsy exactly when its value
is empty (SecretStr defines a len method), and an absent optional secret is
modelled as none. -/

/-- Modelled from the spec: the closed set of provider types named in the
spec (GitHub, GitLab, Gitea, Forgejo). -/
inductive ProviderType
  | github
  | gitlab
  | gitea
  | forgejo
deriving DecidableEq, Repr

/-- String value of a provider type, as the .value attribute of the enum. -/
def ProviderType.value : ProviderType → String
  | .github => "github"
  | .gitlab => "gitlab"
  | .gitea => "gitea"
  | .forgejo => "forgejo"

/-- Modelled from the spec: the enum constructor ProviderType(key) applied
to a string succeeds exactly on a recognized provider type value and raises
ValueError otherwise. -/
def ProviderType.ofString : String → Option ProviderType
  | "github" => some .github
  | "gitlab" => some .gitlab
  | "gitea" => some .gitea
  | "forgejo" => some .forgejo
  | _ => none

/-- Modelled from the spec, section 3: one provider credential of the
legacy single-token-per-provider scheme. -/
structure ProviderToken where
  token : Option String
  host : Option String
  user_id : Option String
deriving DecidableEq, Repr

/-- Modelled from the spec, section 3: a user-defined named secret. -/
structure CustomSecret where
  secret : String
  description : String
deriving DecidableEq, Repr

/-- Modelled from the spec, section 3: a named identified credential for
one provider account. The provider type travels as its string value, which
is how the reconciliation endpoints handle it. -/
structure Integration where
  id : String
  provider_type : String
  name : String
  host : Option String
  token : Option String
  user_id : Option String
deriving DecidableEq, Repr

/-- The aggregate UserSecrets value
(openhands/storage/data_models/user_secrets.py). Mappings are embedded as
association lists in insertion order, matching Python dict semantics. -/
structure UserSecrets where
  provider_tokens : List (ProviderType × ProviderToken) := []
  custom_secrets : List (String × CustomSecret) := []
  integrations : List Integration := []
deriving DecidableEq, Repr

/-- Python truthiness of an optional string-valued secret or id: None is
falsy, and so is the empty string (for SecretStr because pydantic defines
len on it, for a plain str by the usual string truthiness). -/
def optStrTruthy : Option String → Bool
  | none => false
  | some s => s != ""

/-- Association-list lookup, the embedding of Python dict .get, returning
the value at the first matching key. -/
def lookupBy {α β : Type} [DecidableEq α] : List (α × β) → α → Option β
  | [], _ => none
  | (k, v) :: rest, a => if k = a then some v else lookupBy rest a

/-- Python dict item assignment d[k] = v: replace the value at an existing
key in place, else append the new binding. -/
def dictInsert {α β : Type} [DecidableEq α] : List (α × β) → α → β → List (α × β)
  | [], k, v => [(k, v)]
  | (k0, v0) :: rest, k, v =>
    if k0 = k then (k0, v) :: rest else (k0, v0) :: dictInsert rest k v

/-- Building a Python dict by inserting a list of key-value pairs in order
(later values for the same key overwrite earlier ones). -/
def pyDictOfList {α β : Type} [DecidableEq α] (entries : List (α × β)) : List (α × β) :=
  entries.foldl (fun acc kv => dictInsert acc kv.1 kv.2) []

/-! Reconciliation endpoints (openhands/server/routes/secrets.py). The
load-store collaborator and the token-validation network call are
abstracted: the loaded UserSecrets value is a parameter, the validation
call is represented by its resulting error message (empty means the token
validated), and each endpoint result records the HTTP response together
with the UserSecrets value passed to the store call, none when store is
never reached. -/

/-- HTTP response of an endpoint, carrying the response body text exactly
as built by the source f-strings, and for a 201 also the returned id. -/
inductive HttpResponse
  | unauthorized (body : String)
  | badRequest (body : String)
  | notFound (body : String)
  | ok (body : String)
  | created (body : String) (id : String)
deriving DecidableEq, Repr

/-- Result of one endpoint invocation: the response plus the stored
aggregate, none when no store happened. -/
structure EndpointResult where
  response : HttpResponse
  stored : Option UserSecrets
deriving DecidableEq, Repr

/-- Request body of POST /integrations and PUT /integrations, modelled
from the spec HTTP surface (id optional, provider type and name required,
host, token and user id optional). -/
structure POSTIntegrationModel where
  id : Option String
  provider_type : String
  name : String
  host : Option String
  token : Option String
  user_id : Option String
deriving DecidableEq, Repr

/-- Per-entry merge step of the add-git-providers endpoint
(store_provider_tokens loop body, routes/secrets.py lines 131-139): when
the provider is already present and the incoming token is falsy, the
existing entry is reused provided its token is truthy; in every case the
entry finally gets the incoming host. -/
def mergeTokenEntry (user_secrets : UserSecrets) (provider : ProviderType)
    (token_value : ProviderToken) : ProviderToken :=
  let entry :=
    if (lookupBy user_secrets.provider_tokens provider).isSome
        && !(optStrTruthy token_value.token) then
      match lookupBy user_secrets.provider_tokens provider with
      | some existing_token =>
        if optStrTruthy existing_token.token then existing_token else token_value
      | none => token_value
    else token_value
  { entry with host := token_value.host }

/-- Token-merge of the add-git-providers endpoint (store_provider_tokens,
routes/secrets.py lines 122-149), after the validation call succeeded: the
stored aggregate replaces the whole provider_tokens mapping with the
entry-wise merged incoming mapping, leaving all other fields as they
were. -/
def store_provider_tokens (incoming : List (ProviderType × ProviderToken))
    (user_secrets : UserSecrets) : UserSecrets :=
  { user_secrets with
      provider_tokens :=
        incoming.map (fun pv => (pv.1, mergeTokenEntry user_secrets pv.1 pv.2)) }

/-- View of one integration in the GET /integrations listing
(get_integrations, routes/secrets.py lines 360-396): all non-secret fields
plus the has_token flag; the structure has no token field at all, exactly
as the safe_integration dict built by the source. -/
structure SafeIntegration where
  id : String
  provider_type : String
  name : String
  host : Option String
  user_id : Option String
  has_token : Bool
deriving DecidableEq, Repr

/-- Loop body of get_integrations: the safe_integration dict built for one
stored integration, with has_token set exactly when the stored token is
present and non-empty. -/
def mkSafeIntegration (integration : Integration) : SafeIntegration :=
  { id := integration.id
    provider_type := integration.provider_type
    name := integration.name
    host := integration.host
    user_id := integration.user_id
    has_token := optStrTruthy integration.token }

/-- GET /integrations (routes/secrets.py get_integrations): listing of the
stored integrations without token values. -/
def get_integrations (user_secrets : Option UserSecrets) : List SafeIntegration :=
  match user_secrets with
  | none => []
  | some us => us.integrations.map mkSafeIntegration

/-- POST /integrations (routes/secrets.py add_integration). The
validation_msg parameter abstracts the validate_integration_token network
call; it is consulted only when the incoming token is truthy, exactly as
in the source. -/
def add_integration (validation_msg : String) (d : POSTIntegrationModel)
    (loaded : Option UserSecrets) : EndpointResult :=
  if optStrTruthy d.token && !(validation_msg == "") then
    { response := .unauthorized validation_msg, stored := none }
  else
    let user_secrets := loaded.getD {}
    let existing_integrations := user_secrets.integrations
    let existing_ids := existing_integrations.map (fun i => i.id)
    let idAndCheck : String ⊕ String :=
      if !(optStrTruthy d.id) then
        Sum.inl (generate_integration_id d.name d.provider_type existing_ids)
      else
        let given := d.id.getD ""
        if given ∈ existing_ids then Sum.inr given else Sum.inl given
    match idAndCheck with
    | Sum.inr dup =>
      { response := .badRequest
          ("Integration with ID \"" ++ dup ++ "\" already exists")
        stored := none }
    | Sum.inl integration_id =>
      let new_integration : Integration :=
        { id := integration_id
          provider_type := d.provider_type
          name := d.name
          host := d.host
          token := d.token
          user_id := d.user_id }
      let updated_secrets :=
        { user_secrets with
            integrations := existing_integrations ++ [new_integration] }
      { response := .created
          ("Integration \"" ++ d.name ++ "\" added successfully") integration_id
        stored := some updated_secrets }

/-- PUT /integrations (routes/secrets.py update_integration). The
validation_msg parameter abstracts the validate_integration_token call as
in add_integration. Note the source builds existing_ids for the conflict
check by filtering out every integration whose id equals the new id. -/
def update_integration (validation_msg : String) (integration_id : String)
    (d : POSTIntegrationModel) (loaded : Option UserSecrets) : EndpointResult :=
  if optStrTruthy d.token && !(validation_msg == "") then
    { response := .unauthorized validation_msg, stored := none }
  else
    match loaded with
    | none =>
      { response := .notFound
          ("Integration with ID \"" ++ integration_id ++ "\" not found")
        stored := none }
    | some user_secrets =>
      let existing_integrations := user_secrets.integrations
      let new_integration_id :=
        match d.id with
        | some s => s
        | none => integration_id
      let updated_integrations := existing_integrations.map (fun existing =>
        if existing.id = integration_id then
          { id := new_integration_id
            provider_type := d.provider_type
            name := d.name
            host := d.host
            token := if optStrTruthy d.token then d.token else existing.token
            user_id := d.user_id }
        else existing)
      let found := existing_integrations.any (fun e => e.id == integration_id)
      if !found then
        { response := .notFound
            ("Integration with ID \"" ++ integration_id ++ "\" not found")
          stored := none }
      else if new_integration_id ≠ integration_id
          && decide (new_integration_id ∈
              ((updated_integrations.filter
                  (fun i => i.id ≠ new_integration_id)).map (fun i => i.id))) then
        { response := .badRequest
            ("Integration with ID \"" ++ new_integration_id ++ "\" already exists")
          stored := none }
      else
        { response := .ok
            ("Integration \"" ++ d.name ++ "\" updated successfully")
          stored := some { user_secrets with integrations := updated_integrations } }

/-! Gitea-family adapter (openhands/integrations/gitea/). Branch and
PaginatedBranchesResponse live in service_types outside this slice; their
fields are modelled from their construction sites in
gitea/base_service.py. -/

/-- Branch record, fields as populated by get_branches
(gitea/base_service.py lines 330-340). The protected flag is renamed
because protected is a Lean keyword. -/
structure Branch where
  name : String
  commit_sha : String
  branch_protected : Bool
  last_push_date : Option String
deriving DecidableEq, Repr

/-- Paginated branch listing response, fields as populated by
get_paginated_branches (gitea/base_service.py lines 356-362). -/
structure PaginatedBranchesResponse where
  branches : List Branch
  has_next_page : Bool
  current_page : Nat
  per_page : Nat
  total_count : Nat
deriving DecidableEq, Repr

/-- Client-side pagination of get_paginated_branches
(gitea/base_service.py lines 344-362): the full branch collection is
fetched once (here passed in as all_branches) and sliced; the Python slice
from start_index to end_index is drop then take. -/
def get_paginated_branches (all_branches : List Branch)
    (page per_page : Nat) : PaginatedBranchesResponse :=
  let start_index := (page - 1) * per_page
  let end_index := start_index + per_page
  let paginated_branches := (all_branches.drop start_index).take (end_index - start_index)
  { branches := paginated_branches
    has_next_page := decide (end_index < all_branches.length)
    current_page := page
    per_page := per_page
    total_count := all_branches.length }

/-- Adapter error taxonomy (service_types is outside this slice; the
variants are modelled from the spec section 4.2 and carry the message
strings raised in gitea/base_service.py lines 150-157). -/
inductive GitError
  | authentication (msg : String)
  | resourceNotFound (msg : String)
  | unknown (msg : String)
deriving DecidableEq, Repr

/-- Outcome of one adapter request from the caller's point of view: the
translated error if any, how many HTTP requests were executed, and how
many token-refresh calls were made. -/
structure RequestOutcome where
  error : Option GitError
  requestsMade : Nat
  refreshCalls : Nat
deriving DecidableEq, Repr

/-- Modelled from the spec (section 4.2 error translation), matching the
explicit mapping in gitea/base_service.py: unauthorized becomes
AuthenticationError, not-found ResourceNotFoundError, anything else
UnknownException. -/
def handle_http_status_error (status_code : Nat) : GitError :=
  if status_code = 401 then .authentication "Invalid token"
  else if status_code = 404 then .resourceNotFound "Resource not found"
  else .unknown ("HTTP error: " ++ natToDec status_code)

/-- The token-expiry test of the Gitea-family adapter
(_has_token_expired): exactly status 401. -/
def gitea_has_token_expired (status_code : Nat) : Bool :=
  status_code == 401

/-- The request wrapper of GiteaService (gitea/gitea_service.py lines
190-232): execute the request; when the refresh flag is set and the status
is 401, request the latest token once, rebuild the headers and retry the
single request once; then raise_for_status translates any remaining error
status (at least 400). The transport is abstracted as the statuses
function giving the status code of the k-th executed HTTP request. The
refresh flag defaults to false on the service class. -/
def gitea_make_request (refresh : Bool) (statuses : Nat → Nat) : RequestOutcome :=
  let s0 := statuses 0
  if refresh && gitea_has_token_expired s0 then
    let s1 := statuses 1
    { error := if 400 ≤ s1 then some (handle_http_status_error s1) else none
      requestsMade := 2
      refreshCalls := 1 }
  else
    { error := if 400 ≤ s0 then some (handle_http_status_error s0) else none
      requestsMade := 1
      refreshCalls := 0 }

/-- The request helper of BaseGiteaService (gitea/base_service.py lines
121-157): a single request with no retry at all; 401 raises
AuthenticationError directly. -/
def base_gitea_make_request (statuses : Nat → Nat) : RequestOutcome :=
  let s0 := statuses 0
  { error :=
      if s0 = 401 then some (.authentication "Invalid token")
      else if s0 = 404 then some (.resourceNotFound "Resource not found")
      else if 400 ≤ s0 then some (.unknown ("HTTP error: " ++ natToDec s0))
      else none
    requestsMade := 1
    refreshCalls := 0 }

/-! Deserialization of UserSecrets
(user_secrets.py, convert_dict_to_mappingproxy, lines 129-223). The input
is an arbitrary mapping; raw values are embedded as inductives whose
constructors capture the isinstance branches of the source, and the parse
helpers that live outside this slice (ProviderToken.from_value,
CustomSecret.from_value, Integration.from_dict) are modelled from the spec
by letting each raw payload carry its parse outcome: some on success, none
when the parser raises. -/

/-- A raw mapping key of the provider_tokens mapping: a string or an
already-constructed ProviderType value. -/
inductive RawKey
  | str (s : String)
  | ptype (p : ProviderType)
deriving DecidableEq, Repr

/-- A raw provider-token value: an actual ProviderToken instance, or an
arbitrary payload characterized by its outcome under
ProviderToken.from_value (modelled from the spec: from_value parses a raw
value and raises ValueError on invalid input). -/
inductive RawTokenValue
  | tok (t : ProviderToken)
  | raw (parsed : Option ProviderToken)
deriving DecidableEq, Repr

/-- The raw provider_tokens field: a plain dict, a MappingProxyType, or
some other object (carrying only its Python truthiness, which is all the
source ever asks of it). -/
inductive RawTokens
  | dict (entries : List (RawKey × RawTokenValue))
  | proxy (entries : List (ProviderType × ProviderToken))
  | notDict (truthy : Bool)
deriving DecidableEq, Repr

/-- The raw custom_secrets field; dict values carry their outcome under
CustomSecret.from_value (modelled from the spec). -/
inductive RawSecrets
  | dict (entries : List (String × Option CustomSecret))
  | proxy (entries : List (String × CustomSecret))
  | notDict (truthy : Bool)
deriving DecidableEq, Repr

/-- One raw element of the integrations list: an Integration instance, a
dict carrying its outcome under Integration.from_dict (modelled from the
spec), or any other object, which the source skips silently. -/
inductive RawIntegrationItem
  | intg (i : Integration)
  | dict (parsed : Option Integration)
  | otherItem
deriving DecidableEq, Repr

/-- The raw integrations field: a list, or some other object carrying its
truthiness. -/
inductive RawIntegrations
  | list (items : List RawIntegrationItem)
  | notList (truthy : Bool)
deriving DecidableEq, Repr

/-- The raw input mapping handed to the model validator; none means the
key is absent from the mapping. -/
structure RawData where
  provider_tokens : Option RawTokens
  custom_secrets : Option RawSecrets
  integrations : Option RawIntegrations
deriving DecidableEq, Repr

/-- Python truthiness of the raw integrations field: a list is truthy when
non-empty. -/
def RawIntegrations.truthy : RawIntegrations → Bool
  | .list items => !items.isEmpty
  | .notList b => b

/-- Python truthiness of the raw provider_tokens field. -/
def RawTokens.truthy : RawTokens → Bool
  | .dict es => !es.isEmpty
  | .proxy es => !es.isEmpty
  | .notDict b => b

/-- One iteration of the provider_tokens conversion loop (user_secrets.py
lines 146-156): build the ProviderType from a string key or use an enum
key directly, parse the value with ProviderToken.from_value, and skip the
entry when either step raises ValueError. -/
def parseTokenEntry : RawKey × RawTokenValue → Option (ProviderType × ProviderToken)
  | (k, v) =>
    let pt? := match k with
      | .str s => ProviderType.ofString s
      | .ptype p => some p
    let tok? := match v with
      | .tok t => some t
      | .raw o => o
    match pt?, tok? with
    | some p, some t => some (p, t)
    | _, _ => none

/-- One iteration of the custom_secrets conversion loop (user_secrets.py
lines 166-171): parse with CustomSecret.from_value, skipping on
ValueError. -/
def parseSecretEntry : String × Option CustomSecret → Option (String × CustomSecret)
  | (k, v) => v.map (fun s => (k, s))

/-- One iteration of the integrations conversion loop (user_secrets.py
lines 182-193): keep Integration instances, convert dicts with
Integration.from_dict skipping failures, and skip anything else. -/
def convertIntegrationItem : RawIntegrationItem → Option Integration
  | .intg i => some i
  | .dict o => o
  | .otherItem => none

/-- Modelled from the spec, section 4.1 migration: synthesize one
Integration per legacy entry with stable derived id equal to the provider
type name, host, user id and token carried over. -/
def Integration.from_legacy_provider_token (p : ProviderType) (t : ProviderToken) : Integration :=
  { id := p.value
    provider_type := p.value
    name := p.value
    host := t.host
    token := t.token
    user_id := t.user_id }

/-- One iteration of the migration loop over a raw dict (user_secrets.py
lines 203-220): same key and value handling as the conversion loop, then
from_legacy_provider_token; ValueError and AttributeError skip the
entry. -/
def migrateEntryFromDict : RawKey × RawTokenValue → Option Integration
  | (k, v) =>
    let pt? := match k with
      | .str s => ProviderType.ofString s
      | .ptype p => some p
    let tok? := match v with
      | .tok t => some t
      | .raw o => o
    match pt?, tok? with
    | some p, some t => some (Integration.from_legacy_provider_token p t)
    | _, _ => none

/-- The model validator convert_dict_to_mappingproxy (user_secrets.py
lines 129-223). Field conversion: a provider_tokens or custom_secrets
dict is converted entry-wise into a proxy with failing entries skipped, an
existing proxy is kept, and any other value leaves the output key absent;
an integrations list is converted entry-wise with failures skipped, any
other value is carried through unchanged. Migration: when the raw input
has no truthy integrations value and a provider_tokens key whose value is
a truthy dict or proxy, the integrations output is replaced by the list
synthesized from the legacy entries. -/
def convert_dict_to_mappingproxy (data : RawData) : RawData :=
  let new_tokens : Option RawTokens :=
    match data.provider_tokens with
    | none => none
    | some (.dict entries) =>
      some (.proxy (pyDictOfList (entries.filterMap parseTokenEntry)))
    | some (.proxy entries) => some (.proxy entries)
    | some (.notDict _) => none
  let new_secrets : Option RawSecrets :=
    match data.custom_secrets with
    | none => none
    | some (.dict entries) =>
      some (.proxy (pyDictOfList (entries.filterMap parseSecretEntry)))
    | some (.proxy entries) => some (.proxy entries)
    | some (.notDict _) => none
  let converted_integrations : Option RawIntegrations :=
    match data.integrations with
    | none => none
    | some (.list items) =>
      some (.list ((items.filterMap convertIntegrationItem).map RawIntegrationItem.intg))
    | some (.notList b) => some (.notList b)
  let migration_guard :=
    (match data.integrations with
     | none => true
     | some r => !r.truthy) && data.provider_tokens.isSome
  let new_integrations : Option RawIntegrations :=
    if migration_guard then
      match data.provider_tokens with
      | some (.dict entries) =>
        if !(RawTokens.dict entries).truthy then converted_integrations
        else some (.list ((entries.filterMap migrateEntryFromDict).map RawIntegrationItem.intg))
      | some (.proxy entries) =>
        if !(RawTokens.proxy entries).truthy then converted_integrations
        else some (.list ((entries.map (fun pe =>
          Integration.from_legacy_provider_token pe.1 pe.2)).map RawIntegrationItem.intg))
      | _ => converted_integrations
    else converted_integrations
  { provider_tokens := new_tokens
    custom_secrets := new_secrets
    integrations := new_integrations }

/-! Shared helper lemmas. -/

theorem lookupBy_map_valued {α β γ : Type} [DecidableEq α] (g : α → β → γ) :
    ∀ (l : List (α × β)) (a : α),
      lookupBy (l.map (fun kv => (kv.1, g kv.1 kv.2))) a = (lookupBy l a).map (g a) := by
  intro l a
  induction l with
  | nil => rfl
  | cons kv rest ih =>
    obtain ⟨k, v⟩ := kv
    by_cases h : k = a
    · subst h
      simp [lookupBy]
    · simp [lookupBy, h, ih]

theorem lookupBy_dictInsert_self {α β : Type} [DecidableEq α] :
    ∀ (l : List (α × β)) (k : α) (v : β), lookupBy (dictInsert l k v) k = some v := by
  intro l k v
  induction l with
  | nil => simp [dictInsert, lookupBy]
  | cons kv rest ih =>
    obtain ⟨k0, v0⟩ := kv
    by_cases h : k0 = k
    · simp [dictInsert, h, lookupBy]
    · simp [dictInsert, h, lookupBy, ih]

theorem lookupBy_isSome_dictInsert {α β : Type} [DecidableEq α]
    (l : List (α × β)) (k k2 : α) (v : β)
    (h : (lookupBy l k2).isSome = true) :
    (lookupBy (dictInsert l k v) k2).isSome = true := by
  by_cases hk : k = k2
  · subst hk
    rw [lookupBy_dictInsert_self]
    rfl
  · induction l with
    | nil => simp [lookupBy] at h
    | cons kv rest ih =>
      obtain ⟨k0, v0⟩ := kv
      by_cases h0 : k0 = k
      · subst h0
        simp only [dictInsert, if_pos rfl]
        simp only [lookupBy] at h ⊢
        by_cases h2 : k0 = k2
        · simp [h2] at hk
        · simp [h2] at h ⊢
          exact h
      · simp only [dictInsert, if_neg h0]
        simp only [lookupBy] at h ⊢
        by_cases h2 : k0 = k2
        · simp [h2]
        · simp only [if_neg h2] at h ⊢
          exact ih h

theorem pyDict_fold_key_isSome {α β : Type} [DecidableEq α] :
    ∀ (entries : List (α × β)) (acc : List (α × β)) (k : α),
      (k ∈ entries.map Prod.fst ∨ (lookupBy acc k).isSome = true) →
      (lookupBy (entries.foldl (fun a kv => dictInsert a kv.1 kv.2) acc) k).isSome = true := by
  intro entries
  induction entries with
  | nil =>
    intro acc k h
    rcases h with h | h
    · simp at h
    · simpa using h
  | cons e rest ih =>
    intro acc k h
    simp only [List.foldl_cons]
    apply ih
    rcases h with h | h
    · rw [List.map_cons, List.mem_cons] at h
      rcases h with h | h
      · right
        rw [h, lookupBy_dictInsert_self]
        rfl
      · left
        exact h
    · right
      exact lookupBy_isSome_dictInsert _ _ _ _ h

/-! Claim C8. -/

/-- Sample branch used to build concrete branch lists. -/
def mkBranch (k : Nat) : Branch :=
  { name := natToDec k
    commit_sha := ""
    branch_protected := false
    last_push_date := none }

/-- A repository with 45 branches, for the concrete pagination scenario. -/
def branches45 : List Branch :=
  (List.range 45).map mkBranch

/-- Claim C8: for every branch collection and page at least 1 and per_page
at least 1, the Gitea-family paginated branch listing returns the
client-side slice starting at (page - 1) * per_page of at most per_page
elements, reports has_next_page exactly when (page - 1) * per_page +
per_page is below the total, reports total_count equal to the total, and a
set has_next_page implies a full slice; with 45 branches, page 2 and
per_page 20 the result has 20 items, has_next_page true and total_count
45. -/
theorem get_paginated_branches_spec (all_branches : List Branch) (page per_page : Nat)
    (hp : 1 ≤ page) (hk : 1 ≤ per_page) :
    (get_paginated_branches all_branches page per_page).branches
        = (all_branches.drop ((page - 1) * per_page)).take per_page
    ∧ (get_paginated_branches all_branches page per_page).branches.length
        = min per_page (all_branches.length - (page - 1) * per_page)
    ∧ ((get_paginated_branches all_branches page per_page).has_next_page = true
        ↔ (page - 1) * per_page + per_page < all_branches.length)
    ∧ (get_paginated_branches all_branches page per_page).total_count
        = all_branches.length
    ∧ ((get_paginated_branches all_branches page per_page).has_next_page = true →
        (get_paginated_branches all_branches page per_page).branches.length = per_page)
    ∧ (get_paginated_branches branches45 2 20).branches.length = 20
    ∧ (get_paginated_branches branches45 2 20).has_next_page = true
    ∧ (get_paginated_branches branches45 2 20).total_count = 45 := by
  have hbr : (get_paginated_branches all_branches page per_page).branches
      = (all_branches.drop ((page - 1) * per_page)).take per_page := by
    simp [get_paginated_branches]
  have hlen : (get_paginated_branches all_branches page per_page).branches.length
      = min per_page (all_branches.length - (page - 1) * per_page) := by
    rw [hbr]
    simp [List.length_take, List.length_drop]
  have hnext : (get_paginated_branches all_branches page per_page).has_next_page = true
      ↔ (page - 1) * per_page + per_page < all_branches.length := by
    simp [get_paginated_branches]
  refine ⟨hbr, hlen, hnext, by simp [get_paginated_branches], ?_, by decide, by decide, by decide⟩
  intro hn
  rw [hnext] at hn
  rw [hlen]
  omega

/-- Witness for C8 at the concrete 45-branch scenario. -/
theorem get_paginated_branches_spec_witness :
    (1 ≤ 2 ∧ 1 ≤ 20)
    ∧ (get_paginated_branches branches45 2 20).branches.length = 20
    ∧ (get_paginated_branches branches45 2 20).has_next_page = true
    ∧ (get_paginated_branches branches45 2 20).total_count = 45 :=
  ⟨⟨by decide, by decide⟩,
    (get_paginated_branches_spec branches45 2 20 (by decide) (by decide)).2.2.2.2.2.1,
    (get_paginated_branches_spec branches45 2 20 (by decide) (by decide)).2.2.2.2.2.2.1,
    (get_paginated_branches_spec branches45 2 20 (by decide) (by decide)).2.2.2.2.2.2.2⟩

/-! Claim C2. -/

/-- Claim C2 counterexample: with the refresh flag at its class default
false, an unauthorized response produces an immediate AuthenticationError
with zero refresh calls and zero retries, in both the GiteaService request
wrapper and the BaseGiteaService one, contradicting the claim that every
unauthorized adapter response triggers exactly one refresh and exactly one
retry. -/
theorem gitea_unauthorized_no_retry_by_default :
    gitea_make_request false (fun _ => 401)
      = { error := some (.authentication "Invalid token")
          requestsMade := 1
          refreshCalls := 0 }
    ∧ base_gitea_make_request (fun _ => 401)
      = { error := some (.authentication "Invalid token")
          requestsMade := 1
          refreshCalls := 0 } := by
  constructor
  · rfl
  · rfl

/-- Claim C2 as amended: when the refresh flag is enabled, an unauthorized
first response triggers exactly one token refresh and exactly one retry of
the failed request, and a second unauthorized response surfaces
AuthenticationError; when the flag is disabled, which is the class
default, no refresh and no retry happen and AuthenticationError surfaces
immediately; in no case are more than two requests executed. -/
theorem gitea_make_request_refresh_spec (statuses : Nat → Nat)
    (h0 : statuses 0 = 401) :
    (gitea_make_request true statuses).refreshCalls = 1
    ∧ (gitea_make_request true statuses).requestsMade = 2
    ∧ (statuses 1 = 401 →
        (gitea_make_request true statuses).error
          = some (.authentication "Invalid token"))
    ∧ (gitea_make_request false statuses).refreshCalls = 0
    ∧ (gitea_make_request false statuses).requestsMade = 1
    ∧ (gitea_make_request false statuses).error
        = some (.authentication "Invalid token")
    ∧ (∀ b : Bool, (gitea_make_request b statuses).requestsMade ≤ 2) := by
  refine ⟨?_, ?_, ?_, ?_, ?_, ?_, ?_⟩
  · simp [gitea_make_request, gitea_has_token_expired, h0]
  · simp [gitea_make_request, gitea_has_token_expired, h0]
  · intro h1
    simp [gitea_make_request, gitea_has_token_expired, h0, h1, handle_http_status_error]
  · simp [gitea_make_request]
  · simp [gitea_make_request]
  · simp [gitea_make_request, h0, handle_http_status_error]
  · intro b
    cases b
    · simp [gitea_make_request]
    · simp only [gitea_make_request]
      by_cases h : gitea_has_token_expired (statuses 0) = true
      · simp [h]
      · simp [h]

/-- Witness for the amended C2 at the trace answering 401 to every
request. -/
theorem gitea_make_request_refresh_spec_witness :
    ((fun _ : Nat => 401) 0 = 401)
    ∧ (gitea_make_request true (fun _ => 401)).refreshCalls = 1
    ∧ (gitea_make_request true (fun _ => 401)).requestsMade = 2
    ∧ (gitea_make_request true (fun _ => 401)).error
        = some (.authentication "Invalid token") :=
  ⟨rfl,
    (gitea_make_request_refresh_spec (fun _ => 401) rfl).1,
    (gitea_make_request_refresh_spec (fun _ => 401) rfl).2.1,
    (gitea_make_request_refresh_spec (fun _ => 401) rfl).2.2.1 rfl⟩

/-! Claim C3. -/

/-- Existing secret set holding a GitHub token, for the C3
counterexample. -/
def usC3 : UserSecrets :=
  { provider_tokens := [(ProviderType.github,
      { token := some "gh-token", host := some "github.com", user_id := none })]
    custom_secrets := []
    integrations := [] }

/-- Incoming legacy update mentioning only GitLab, for the C3
counterexample. -/
def incomingC3 : List (ProviderType × ProviderToken) :=
  [(ProviderType.gitlab, { token := some "gl-token", host := none, user_id := none })]

/-- Claim C3 counterexample: the stored set holds a GitHub entry, the
incoming update mentions only GitLab, and after the merge the GitHub entry
is gone rather than unchanged: the whole provider_tokens mapping is
replaced by the processed incoming mapping. -/
theorem store_provider_tokens_drops_absent_provider :
    lookupBy usC3.provider_tokens ProviderType.github
      = some { token := some "gh-token", host := some "github.com", user_id := none }
    ∧ lookupBy (store_provider_tokens incomingC3 usC3).provider_tokens
        ProviderType.github = none := by
  constructor
  · rfl
  · rfl

/-- Claim C3 as amended: the merge leaves custom_secrets and integrations
untouched, but the resulting provider_tokens mapping has exactly the
incoming provider types as keys, so entries for provider types absent from
the incoming mapping are dropped rather than preserved. -/
theorem store_provider_tokens_replaces_map_frame
    (incoming : List (ProviderType × ProviderToken)) (us : UserSecrets) :
    (store_provider_tokens incoming us).custom_secrets = us.custom_secrets
    ∧ (store_provider_tokens incoming us).integrations = us.integrations
    ∧ (store_provider_tokens incoming us).provider_tokens.map Prod.fst
        = incoming.map Prod.fst := by
  refine ⟨rfl, rfl, ?_⟩
  simp only [store_provider_tokens, List.map_map]
  rfl

/-! Claim C1. -/

theorem not_mem_filtered_ids (l : List Integration) (x : String) :
    x ∉ (l.filter (fun i => decide (i.id ≠ x))).map (fun i => i.id) := by
  intro hx
  rw [List.mem_map] at hx
  obtain ⟨i, hi, hix⟩ := hx
  rw [List.mem_filter] at hi
  have : i.id ≠ x := by simpa using hi.2
  exact this hix

/-- Stored set with two distinct integrations a and b, for the C1 failing
input. -/
def usC1 : UserSecrets :=
  { provider_tokens := []
    custom_secrets := []
    integrations :=
      [{ id := "a", provider_type := "github", name := "A"
         host := none, token := some "ta", user_id := none },
       { id := "b", provider_type := "github", name := "B"
         host := none, token := some "tb", user_id := none }] }

/-- Update request renaming integration a to the already-taken id b, for
the C1 failing input. -/
def dC1 : POSTIntegrationModel :=
  { id := some "b", provider_type := "github", name := "A2"
    host := none, token := none, user_id := none }

/-- Claim C1 is violated by the code: renaming integration a to the id of
the distinct existing integration b is not rejected; the endpoint answers
200 and stores a list carrying the id b twice. The conflict check is
unreachable for every input, because the candidate ids it tests are first
filtered to exclude every integration whose id equals the new id. -/
theorem update_integration_duplicate_id_not_rejected :
    ((update_integration "" "a" dC1 (some usC1)).response
        = .ok "Integration \"A2\" updated successfully"
      ∧ ((update_integration "" "a" dC1 (some usC1)).stored.map
          (fun us => us.integrations.map (fun i => i.id))) = some ["b", "b"])
    ∧ (∀ (vmsg iid : String) (d : POSTIntegrationModel)
        (loaded : Option UserSecrets) (m : String),
        (update_integration vmsg iid d loaded).response ≠ .badRequest m) := by
  constructor
  · exact ⟨by decide, by decide⟩
  · intro vmsg iid d loaded m
    simp only [update_integration]
    by_cases h1 : (optStrTruthy d.token && !(vmsg == "")) = true
    · simp [h1]
    · rw [if_neg (by simp [h1])]
      cases loaded with
      | none => simp
      | some us =>
        simp only
        by_cases h2 : (!us.integrations.any (fun e => e.id == iid)) = true
        · simp [h2]
        · rw [if_neg (by simp_all)]
          set nid := (match d.id with | some s => s | none => iid) with hnid
          by_cases h3 : nid = iid
          · simp [h3]
          · rw [if_neg]
            · simp
            · simp only [Bool.and_eq_true, decide_eq_true_eq]
              rintro ⟨-, habs⟩
              exact not_mem_filtered_ids _ nid habs

/-! Claim C9. -/

/-- Claim C9: a POST /integrations request whose caller-supplied non-empty
id already exists among the stored integrations stores nothing, and, when
the token validation step passes, answers 400 with the message naming the
id. -/
theorem add_integration_rejects_duplicate_id
    (vmsg : String) (d : POSTIntegrationModel) (us : UserSecrets) (gid : String)
    (hid : d.id = some gid) (hne : gid ≠ "")
    (hmem : gid ∈ us.integrations.map (fun i => i.id)) :
    (add_integration vmsg d (some us)).stored = none
    ∧ (vmsg = "" →
        (add_integration vmsg d (some us)).response
          = .badRequest ("Integration with ID \"" ++ gid ++ "\" already exists")) := by
  have htr2 : optStrTruthy (some gid) = true := by
    simp only [optStrTruthy, bne_iff_ne, ne_eq]
    exact hne
  have hkey : add_integration vmsg d (some us)
      = if (optStrTruthy d.token && !(vmsg == "")) = true
        then { response := .unauthorized vmsg, stored := none }
        else
          { response := HttpResponse.badRequest ("Integration with ID \"" ++ gid ++ "\" already exists")
            stored := none } := by
    by_cases h1 : (optStrTruthy d.token && !(vmsg == "")) = true
    · rw [if_pos h1]
      simp only [add_integration]
      rw [if_pos h1]
    · rw [if_neg h1]
      simp only [add_integration]
      rw [if_neg h1]
      simp only [hid, Option.getD_some, htr2, Bool.not_true]
      rw [if_neg (by decide : ¬(false = true))]
      rw [if_pos hmem]
  constructor
  · rw [hkey]
    by_cases h1 : (optStrTruthy d.token && !(vmsg == "")) = true
    · rw [if_pos h1]
    · rw [if_neg h1]
  · intro hv
    subst hv
    rw [hkey]
    rw [if_neg (by simp)]

/-- Stored set containing integration x, for the C9 witness. -/
def usC9 : UserSecrets :=
  { provider_tokens := []
    custom_secrets := []
    integrations :=
      [{ id := "x", provider_type := "github", name := "X"
         host := none, token := some "tx", user_id := none }] }

/-- Request re-adding id x, for the C9 witness. -/
def dC9 : POSTIntegrationModel :=
  { id := some "x", provider_type := "github", name := "X2"
    host := none, token := none, user_id := none }

/-- Witness for C9 at a concrete duplicate add. -/
theorem add_integration_rejects_duplicate_id_witness :
    (dC9.id = some "x" ∧ "x" ≠ ""
      ∧ "x" ∈ usC9.integrations.map (fun i => i.id))
    ∧ (add_integration "" dC9 (some usC9)).stored = none
    ∧ (add_integration "" dC9 (some usC9)).response
        = .badRequest ("Integration with ID \"" ++ "x" ++ "\" already exists") :=
  ⟨⟨rfl, by decide, by decide⟩,
    (add_integration_rejects_duplicate_id "" dC9 usC9 "x" rfl (by decide) (by decide)).1,
    (add_integration_rejects_duplicate_id "" dC9 usC9 "x" rfl (by decide) (by decide)).2 rfl⟩

/-! Claim C7. -/

/-- Two integrations agreeing on every non-secret field and on the
non-emptiness of their tokens, while the token values themselves may
differ. -/
def integrationSameButToken (i j : Integration) : Prop :=
  i.id = j.id ∧ i.provider_type = j.provider_type ∧ i.name = j.name
    ∧ i.host = j.host ∧ i.user_id = j.user_id
    ∧ optStrTruthy i.token = optStrTruthy j.token

theorem mkSafe_eq_of_sameButToken {i j : Integration}
    (h : integrationSameButToken i j) :
    mkSafeIntegration i = mkSafeIntegration j := by
  obtain ⟨h1, h2, h3, h4, h5, h6⟩ := h
  simp [mkSafeIntegration, h1, h2, h3, h4, h5, h6]

theorem map_mkSafe_eq_of_forall₂ :
    ∀ l1 l2 : List Integration, List.Forall₂ integrationSameButToken l1 l2 →
      l1.map mkSafeIntegration = l2.map mkSafeIntegration := by
  intro l1 l2 h
  induction h with
  | nil => rfl
  | cons hrel htail ih =>
    simp only [List.map_cons, ih, List.cons.injEq, and_true]
    exact mkSafe_eq_of_sameButToken hrel

/-- Claim C7: the GET /integrations listing exposes no token value: each
row is built only from the non-secret fields plus the token non-emptiness
flag, the has_token flag is true exactly when a non-empty token is stored
for that integration, and two stored sets that differ only in token values
with the same per-integration token non-emptiness produce identical
listings. -/
theorem get_integrations_hides_tokens :
    (∀ us : UserSecrets, List.Forall₂
        (fun (intg : Integration) (safe : SafeIntegration) =>
          safe.id = intg.id ∧ safe.provider_type = intg.provider_type
            ∧ safe.name = intg.name ∧ safe.host = intg.host
            ∧ safe.user_id = intg.user_id
            ∧ (safe.has_token = true ↔ ∃ s, intg.token = some s ∧ s ≠ ""))
        us.integrations (get_integrations (some us)))
    ∧ (∀ us1 us2 : UserSecrets,
        List.Forall₂ integrationSameButToken us1.integrations us2.integrations →
        get_integrations (some us1) = get_integrations (some us2))
    ∧ get_integrations none = [] := by
  refine ⟨?_, ?_, rfl⟩
  · intro us
    show List.Forall₂ _ us.integrations (us.integrations.map mkSafeIntegration)
    rw [List.forall₂_map_right_iff, List.forall₂_same]
    intro x hx
    refine ⟨rfl, rfl, rfl, rfl, rfl, ?_⟩
    cases hxt : x.token with
    | none => simp [mkSafeIntegration, optStrTruthy, hxt]
    | some s =>
      simp only [mkSafeIntegration, optStrTruthy, hxt]
      constructor
      · intro hs
        exact ⟨s, rfl, by simpa using hs⟩
      · rintro ⟨t, ht, hts⟩
        rw [Option.some.injEq] at ht
        subst ht
        simpa using hts
  · intro us1 us2 h
    show us1.integrations.map mkSafeIntegration = us2.integrations.map mkSafeIntegration
    exact map_mkSafe_eq_of_forall₂ _ _ h

/-- Two stored sets for the C7 witness, identical except for the stored
token values, which are both non-empty. -/
def usC7a : UserSecrets :=
  { provider_tokens := []
    custom_secrets := []
    integrations :=
      [{ id := "x", provider_type := "github", name := "X"
         host := some "h", token := some "secret-one", user_id := none }] }

/-- Second stored set for the C7 witness. -/
def usC7b : UserSecrets :=
  { provider_tokens := []
    custom_secrets := []
    integrations :=
      [{ id := "x", provider_type := "github", name := "X"
         host := some "h", token := some "other-two", user_id := none }] }

/-- Witness for C7: the two concrete sets differing only in token values
produce identical listings. -/
theorem get_integrations_hides_tokens_witness :
    List.Forall₂ integrationSameButToken usC7a.integrations usC7b.integrations
    ∧ get_integrations (some usC7a) = get_integrations (some usC7b) := by
  have hf : List.Forall₂ integrationSameButToken usC7a.integrations usC7b.integrations := by
    refine List.Forall₂.cons ?_ List.Forall₂.nil
    exact ⟨rfl, rfl, rfl, rfl, rfl, by decide⟩
  exact ⟨hf, get_integrations_hides_tokens.2.1 usC7a usC7b hf⟩

/-! Claim C4. -/

/-- Claim C4: a stored credential is never wiped by an update that omits
or empties the secret. For the legacy token upsert: when the incoming
entry for a provider carries a falsy token while the stored entry for that
provider has a truthy one, the merged entry is the stored one with only
the host replaced by the incoming host; when the incoming token is truthy
the incoming entry replaces the stored one wholesale. For the integration
update: whenever the endpoint stores a result, the entry addressed by the
id keeps its previous token exactly when the incoming token is falsy and
takes the incoming token otherwise, and every other entry is unchanged. -/
theorem token_omission_preserves_stored_secret :
    (∀ (incoming : List (ProviderType × ProviderToken)) (us : UserSecrets)
        (p : ProviderType) (tv et : ProviderToken),
        lookupBy incoming p = some tv →
        lookupBy us.provider_tokens p = some et →
        optStrTruthy et.token = true →
        lookupBy (store_provider_tokens incoming us).provider_tokens p
          = some (if optStrTruthy tv.token
                  then { tv with host := tv.host }
                  else { et with host := tv.host }))
    ∧ (∀ (vmsg iid : String) (d : POSTIntegrationModel) (us st : UserSecrets),
        (update_integration vmsg iid d (some us)).stored = some st →
        List.Forall₂ (fun (e enew : Integration) =>
            (e.id = iid →
              enew.token = (if optStrTruthy d.token then d.token else e.token))
            ∧ (e.id ≠ iid → enew = e))
          us.integrations st.integrations) := by
  constructor
  · intro incoming us p tv et hin hex htr
    show lookupBy (incoming.map (fun kv => (kv.1, mergeTokenEntry us kv.1 kv.2))) p = _
    rw [lookupBy_map_valued (mergeTokenEntry us) incoming p, hin]
    simp only [Option.map_some']
    congr 1
    simp only [mergeTokenEntry, hex, Option.isSome_some, Bool.true_and]
    by_cases htv : optStrTruthy tv.token = true
    · simp [htv]
    · simp only [Bool.not_eq_true] at htv
      simp [htv, htr]
  · intro vmsg iid d us st hst
    have hint : st.integrations = us.integrations.map (fun existing =>
        if existing.id = iid then
          { id := (match d.id with | some s => s | none => iid)
            provider_type := d.provider_type, name := d.name, host := d.host
            token := if optStrTruthy d.token then d.token else existing.token
            user_id := d.user_id }
        else existing) := by
      simp only [update_integration] at hst
      by_cases h1 : (optStrTruthy d.token && !(vmsg == "")) = true
      · rw [if_pos h1] at hst
        simp at hst
      · rw [if_neg h1] at hst
        by_cases h2 : (!us.integrations.any (fun e => e.id == iid)) = true
        · rw [if_pos h2] at hst
          simp at hst
        · rw [if_neg h2] at hst
          by_cases h3 : ((match d.id with | some s => s | none => iid) ≠ iid
              && decide ((match d.id with | some s => s | none => iid) ∈
                ((us.integrations.map (fun existing =>
                  if existing.id = iid then
                    { id := (match d.id with | some s => s | none => iid)
                      provider_type := d.provider_type, name := d.name, host := d.host
                      token := if optStrTruthy d.token then d.token else existing.token
                      user_id := d.user_id }
                  else existing)).filter
                    (fun i => i.id ≠ (match d.id with | some s => s | none => iid))).map
                      (fun i => i.id))) = true
          · exfalso
            simp only [Bool.and_eq_true, decide_eq_true_eq] at h3
            exact not_mem_filtered_ids _ _ h3.2
          · rw [if_neg h3] at hst
            simp only [Option.some.injEq] at hst
            rw [← hst]
    rw [hint, List.forall₂_map_right_iff, List.forall₂_same]
    intro e he
    constructor
    · intro heid
      rw [if_pos heid]
    · intro heid
      rw [if_neg heid]

/-- Stored set and incoming update for the C4 witness: the incoming GitHub
entry carries no token but a new host; the stored GitHub token is
non-empty. -/
def usC4 : UserSecrets :=
  { provider_tokens := [(ProviderType.github,
      { token := some "keep-me", host := some "old-host", user_id := some "u1" })]
    custom_secrets := []
    integrations :=
      [{ id := "x", provider_type := "github", name := "X"
         host := none, token := some "old-token", user_id := none }] }

/-- Incoming legacy update with an omitted token, for the C4 witness. -/
def incomingC4 : List (ProviderType × ProviderToken) :=
  [(ProviderType.github, { token := none, host := some "new-host", user_id := none })]

/-- Tokenless update request for integration x, for the C4 witness. -/
def dC4 : POSTIntegrationModel :=
  { id := none, provider_type := "github", name := "X2"
    host := some "h2", token := none, user_id := none }

/-- The stored result of the C4 witness update. -/
def stC4 : UserSecrets :=
  { provider_tokens := usC4.provider_tokens
    custom_secrets := []
    integrations :=
      [{ id := "x", provider_type := "github", name := "X2"
         host := some "h2", token := some "old-token", user_id := none }] }

/-- Witness for C4: at the concrete inputs, the merged legacy entry keeps
the stored token and takes the incoming host, and the tokenless
integration update stores a result whose sole entry keeps the old
token. -/
theorem token_omission_preserves_stored_secret_witness :
    (lookupBy incomingC4 ProviderType.github
        = some { token := none, host := some "new-host", user_id := none }
      ∧ lookupBy usC4.provider_tokens ProviderType.github
        = some { token := some "keep-me", host := some "old-host", user_id := some "u1" }
      ∧ optStrTruthy (some "keep-me") = true
      ∧ lookupBy (store_provider_tokens incomingC4 usC4).provider_tokens ProviderType.github
        = some (if optStrTruthy (none : Option String)
                then { token := none, host := some "new-host", user_id := none }
                else { token := some "keep-me", host := some "new-host", user_id := some "u1" }))
    ∧ ((update_integration "" "x" dC4 (some usC4)).stored = some stC4
      ∧ List.Forall₂ (fun (e enew : Integration) =>
          (e.id = "x" →
            enew.token = (if optStrTruthy dC4.token then dC4.token else e.token))
          ∧ (e.id ≠ "x" → enew = e))
        usC4.integrations stC4.integrations) := by
  refine ⟨⟨by decide, by decide, by decide, ?_⟩, ?_, ?_⟩
  · exact token_omission_preserves_stored_secret.1 incomingC4 usC4 ProviderType.github
      { token := none, host := some "new-host", user_id := none }
      { token := some "keep-me", host := some "old-host", user_id := some "u1" }
      (by decide) (by decide) (by decide)
  · decide
  · exact token_omission_preserves_stored_secret.2 "" "x" dC4 usC4 stC4 (by decide)

/-! Claim C6. -/

/-- A sequence of POST /integrations requests with empty ids: each step
appends the freshly generated id for the request name and provider type to
the stored id list, as add_integration does. -/
def addGeneratedIds : List (String × String) → List String → List String
  | [], ids => ids
  | (n, p) :: rest, ids =>
    addGeneratedIds rest (ids ++ [generate_integration_id n p ids])

/-- Claim C6: an add-integration request with an empty id derives the
stored id deterministically from the name with a lower-case hyphenated
sanitization falling back to the provider type and a numeric suffix on
collision; the generated id is never among the existing ids, any sequence
of empty-id additions with arbitrary names keeps the stored id list free
of duplicates, and concretely the name My GitHub!! yields my-github and a
second identical addition yields my-github-1. -/
theorem generate_integration_id_unique_spec :
    (∀ (name ptype : String) (existing : List String),
        generate_integration_id name ptype existing ∉ existing)
    ∧ (∀ (reqs : List (String × String)) (ids : List String),
        ids.Nodup → (addGeneratedIds reqs ids).Nodup)
    ∧ generate_integration_id "My GitHub!!" "github" [] = "my-github"
    ∧ generate_integration_id "My GitHub!!" "github" ["my-github"] = "my-github-1" := by
  have hnodup : ∀ (reqs : List (String × String)) (ids : List String),
      ids.Nodup → (addGeneratedIds reqs ids).Nodup := by
    intro reqs
    induction reqs with
    | nil =>
      intro ids h
      exact h
    | cons np rest ih =>
      intro ids h
      obtain ⟨n, p⟩ := np
      apply ih
      rw [List.nodup_append]
      refine ⟨h, List.nodup_singleton _, ?_⟩
      intro a ha hb
      rw [List.mem_singleton] at hb
      subst hb
      exact generate_integration_id_fresh n p ids ha
  exact ⟨fun name ptype existing => generate_integration_id_fresh name ptype existing,
    hnodup, by decide, by decide⟩

/-- Witness for C6: two identical empty-id additions starting from an
empty store produce the duplicate-free id list my-github, my-github-1. -/
theorem generate_integration_id_unique_spec_witness :
    ([] : List String).Nodup
    ∧ (addGeneratedIds [("My GitHub!!", "github"), ("My GitHub!!", "github")] []).Nodup
    ∧ addGeneratedIds [("My GitHub!!", "github"), ("My GitHub!!", "github")] []
        = ["my-github", "my-github-1"] :=
  ⟨List.nodup_nil,
    generate_integration_id_unique_spec.2.1
      [("My GitHub!!", "github"), ("My GitHub!!", "github")] [] List.nodup_nil,
    by decide⟩

/-! Claims C5 and C10: the deserialization validator. -/

theorem convert_provider_tokens_proj (data : RawData) :
    (convert_dict_to_mappingproxy data).provider_tokens
      = (match data.provider_tokens with
         | none => none
         | some (.dict entries) =>
           some (.proxy (pyDictOfList (entries.filterMap parseTokenEntry)))
         | some (.proxy entries) => some (.proxy entries)
         | some (.notDict _) => none) := rfl

theorem convert_custom_secrets_proj (data : RawData) :
    (convert_dict_to_mappingproxy data).custom_secrets
      = (match data.custom_secrets with
         | none => none
         | some (.dict entries) =>
           some (.proxy (pyDictOfList (entries.filterMap parseSecretEntry)))
         | some (.proxy entries) => some (.proxy entries)
         | some (.notDict _) => none) := rfl

theorem convert_integrations_of_ne_nil (data : RawData)
    (items : List RawIntegrationItem)
    (hd : data.integrations = some (.list items)) (hne : items ≠ []) :
    (convert_dict_to_mappingproxy data).integrations
      = some (.list ((items.filterMap convertIntegrationItem).map RawIntegrationItem.intg)) := by
  have htr : (RawIntegrations.list items).truthy = true := by
    cases items with
    | nil => exact absurd rfl hne
    | cons a l => rfl
  simp only [convert_dict_to_mappingproxy, hd]
  simp [htr]

theorem filterMap_convert_map_intg (is : List Integration) :
    (is.map RawIntegrationItem.intg).filterMap convertIntegrationItem = is := by
  rw [List.filterMap_map]
  have h : convertIntegrationItem ∘ RawIntegrationItem.intg = some := funext fun i => rfl
  rw [h]
  exact List.filterMap_some is

/-- Raw input with a non-empty legacy map and a non-empty integrations
list whose only element fails conversion, for the C5 counterexample. -/
def dataC5 : RawData :=
  { provider_tokens := some (.dict
      [(.str "github", .raw (some { token := some "t", host := none, user_id := none }))])
    custom_secrets := none
    integrations := some (.list [.dict none]) }

/-- Claim C5 counterexample: on an input whose integrations list is
present and non-empty but whose only entry fails conversion, while a
non-empty legacy map is present, the validator changes the integrations
list (the bad entry is dropped), and applying the validator twice differs
from applying it once: the first pass leaves an empty converted list with
a non-empty legacy proxy, so the second pass runs the migration. -/
theorem convert_migration_not_idempotent_on_invalid_entries :
    (convert_dict_to_mappingproxy dataC5).integrations ≠ dataC5.integrations
    ∧ convert_dict_to_mappingproxy (convert_dict_to_mappingproxy dataC5)
        ≠ convert_dict_to_mappingproxy dataC5 := by
  constructor
  · decide
  · decide

/-- Claim C5 as amended: when the raw integrations value is a non-empty
list, the legacy migration is skipped and the output integrations list is
exactly the per-entry conversion of the input list; when additionally the
entries are already Integration values the list is unchanged; and applying
the validator twice agrees with applying it once provided at least one
entry of the list converts successfully. Without that proviso idempotence
fails, as the counterexample shows. -/
theorem convert_migration_skip_and_idempotent :
    (∀ (data : RawData) (items : List RawIntegrationItem),
        data.integrations = some (.list items) → items ≠ [] →
        (convert_dict_to_mappingproxy data).integrations
          = some (.list ((items.filterMap convertIntegrationItem).map RawIntegrationItem.intg)))
    ∧ (∀ (data : RawData) (is : List Integration),
        data.integrations = some (.list (is.map RawIntegrationItem.intg)) → is ≠ [] →
        (convert_dict_to_mappingproxy data).integrations = data.integrations)
    ∧ (∀ (data : RawData) (items : List RawIntegrationItem),
        data.integrations = some (.list items) →
        items.filterMap convertIntegrationItem ≠ [] →
        convert_dict_to_mappingproxy (convert_dict_to_mappingproxy data)
          = convert_dict_to_mappingproxy data) := by
  refine ⟨convert_integrations_of_ne_nil, ?_, ?_⟩
  · intro data is hd hne
    have hne2 : is.map RawIntegrationItem.intg ≠ [] := by
      rw [Ne, List.map_eq_nil_iff]
      exact hne
    rw [convert_integrations_of_ne_nil data _ hd hne2, filterMap_convert_map_intg, hd]
  · intro data items hd hne2
    have hne : items ≠ [] := by
      intro h
      subst h
      simp at hne2
    have hint1 : (convert_dict_to_mappingproxy data).integrations
        = some (.list ((items.filterMap convertIntegrationItem).map RawIntegrationItem.intg)) :=
      convert_integrations_of_ne_nil data items hd hne
    have hmapne : (items.filterMap convertIntegrationItem).map RawIntegrationItem.intg ≠ [] := by
      rw [Ne, List.map_eq_nil_iff]
      exact hne2
    have htok : (convert_dict_to_mappingproxy (convert_dict_to_mappingproxy data)).provider_tokens
        = (convert_dict_to_mappingproxy data).provider_tokens := by
      rw [convert_provider_tokens_proj (convert_dict_to_mappingproxy data),
        convert_provider_tokens_proj data]
      cases hpt : data.provider_tokens with
      | none => rfl
      | some rt =>
        cases rt with
        | dict es => rfl
        | proxy es => rfl
        | notDict b => rfl
    have hsec : (convert_dict_to_mappingproxy (convert_dict_to_mappingproxy data)).custom_secrets
        = (convert_dict_to_mappingproxy data).custom_secrets := by
      rw [convert_custom_secrets_proj (convert_dict_to_mappingproxy data),
        convert_custom_secrets_proj data]
      cases hcs : data.custom_secrets with
      | none => rfl
      | some rs =>
        cases rs with
        | dict es => rfl
        | proxy es => rfl
        | notDict b => rfl
    have hint2 : (convert_dict_to_mappingproxy (convert_dict_to_mappingproxy data)).integrations
        = (convert_dict_to_mappingproxy data).integrations := by
      rw [convert_integrations_of_ne_nil (convert_dict_to_mappingproxy data) _ hint1 hmapne,
        filterMap_convert_map_intg, hint1]
    calc convert_dict_to_mappingproxy (convert_dict_to_mappingproxy data)
        = { provider_tokens :=
              (convert_dict_to_mappingproxy (convert_dict_to_mappingproxy data)).provider_tokens
            custom_secrets :=
              (convert_dict_to_mappingproxy (convert_dict_to_mappingproxy data)).custom_secrets
            integrations :=
              (convert_dict_to_mappingproxy (convert_dict_to_mappingproxy data)).integrations } := rfl
      _ = { provider_tokens := (convert_dict_to_mappingproxy data).provider_tokens
            custom_secrets := (convert_dict_to_mappingproxy data).custom_secrets
            integrations := (convert_dict_to_mappingproxy data).integrations } := by
            rw [htok, hsec, hint2]
      _ = convert_dict_to_mappingproxy data := rfl

/-- Already-valid integration used by the C5 witness. -/
def intgC5 : Integration :=
  { id := "gitea", provider_type := "gitea", name := "G"
    host := none, token := some "t", user_id := none }

/-- Raw input with a non-empty legacy map and a non-empty integrations
list containing one valid entry, for the C5 witness. -/
def dataC5w : RawData :=
  { provider_tokens := some (.dict [(.str "bad", .raw none)])
    custom_secrets := none
    integrations := some (.list [.intg intgC5]) }

/-- Witness for the amended C5 at a concrete already-migrated input. -/
theorem convert_migration_skip_and_idempotent_witness :
    (dataC5w.integrations = some (.list [.intg intgC5])
      ∧ ([RawIntegrationItem.intg intgC5] : List RawIntegrationItem) ≠ []
      ∧ ([RawIntegrationItem.intg intgC5].filterMap convertIntegrationItem) ≠ [])
    ∧ (convert_dict_to_mappingproxy dataC5w).integrations = dataC5w.integrations
    ∧ convert_dict_to_mappingproxy (convert_dict_to_mappingproxy dataC5w)
        = convert_dict_to_mappingproxy dataC5w :=
  ⟨⟨rfl, by decide, by decide⟩,
    convert_migration_skip_and_idempotent.2.1 dataC5w [intgC5] rfl (by decide),
    convert_migration_skip_and_idempotent.2.2 dataC5w [.intg intgC5] rfl (by decide)⟩

/-- Claim C10: an individually malformed entry never aborts
deserialization. A provider_tokens dict converts to the proxy built from
exactly its parseable entries; a custom_secrets dict likewise; a non-empty
integrations list converts to exactly its convertible entries; and every
parseable provider_tokens entry is kept: its provider type is present in
the resulting mapping. -/
theorem convert_dict_skips_malformed_entries :
    (∀ (data : RawData) (entries : List (RawKey × RawTokenValue)),
        data.provider_tokens = some (.dict entries) →
        (convert_dict_to_mappingproxy data).provider_tokens
          = some (.proxy (pyDictOfList (entries.filterMap parseTokenEntry))))
    ∧ (∀ (data : RawData) (entries : List (String × Option CustomSecret)),
        data.custom_secrets = some (.dict entries) →
        (convert_dict_to_mappingproxy data).custom_secrets
          = some (.proxy (pyDictOfList (entries.filterMap parseSecretEntry))))
    ∧ (∀ (data : RawData) (items : List RawIntegrationItem),
        data.integrations = some (.list items) → items ≠ [] →
        (convert_dict_to_mappingproxy data).integrations
          = some (.list ((items.filterMap convertIntegrationItem).map RawIntegrationItem.intg)))
    ∧ (∀ (entries : List (RawKey × RawTokenValue)) (p : ProviderType) (t : ProviderToken),
        (p, t) ∈ entries.filterMap parseTokenEntry →
        (lookupBy (pyDictOfList (entries.filterMap parseTokenEntry)) p).isSome = true) := by
  refine ⟨?_, ?_, convert_integrations_of_ne_nil, ?_⟩
  · intro data entries hd
    rw [convert_provider_tokens_proj data, hd]
  · intro data entries hd
    rw [convert_custom_secrets_proj data, hd]
  · intro entries p t hmem
    apply pyDict_fold_key_isSome
    left
    rw [List.mem_map]
    exact ⟨(p, t), hmem, rfl⟩

/-- Raw input mixing valid and malformed entries in all three fields, for
the C10 witness. -/
def dataC10 : RawData :=
  { provider_tokens := some (.dict
      [(.str "github", .raw (some { token := some "t1", host := none, user_id := none })),
       (.str "unrecognized", .raw (some { token := some "t2", host := none, user_id := none })),
       (.str "gitlab", .raw none)])
    custom_secrets := some (.dict
      [("good", some { secret := "s", description := "d" }),
       ("bad", none)])
    integrations := some (.list [.intg intgC5, .dict none, .otherItem]) }

/-- Witness for C10 at the concrete mixed input: the malformed entries are
dropped, the valid ones kept. -/
theorem convert_dict_skips_malformed_entries_witness :
    (dataC10.provider_tokens = some (.dict
        [(.str "github", .raw (some { token := some "t1", host := none, user_id := none })),
         (.str "unrecognized", .raw (some { token := some "t2", host := none, user_id := none })),
         (.str "gitlab", .raw none)])
      ∧ dataC10.integrations = some (.list [.intg intgC5, .dict none, .otherItem])
      ∧ ([RawIntegrationItem.intg intgC5, .dict none, .otherItem] : List RawIntegrationItem) ≠ [])
    ∧ (convert_dict_to_mappingproxy dataC10).provider_tokens
        = some (.proxy [(ProviderType.github,
            { token := some "t1", host := none, user_id := none })])
    ∧ (convert_dict_to_mappingproxy dataC10).custom_secrets
        = some (.proxy [("good", { secret := "s", description := "d" })])
    ∧ (convert_dict_to_mappingproxy dataC10).integrations
        = some (.list [.intg intgC5])
    ∧ (lookupBy (pyDictOfList ([(.str "github",
          RawTokenValue.raw (some { token := some "t1", host := none, user_id := none })),
         (.str "unrecognized", .raw (some { token := some "t2", host := none, user_id := none })),
         (.str "gitlab", .raw none)].filterMap parseTokenEntry))
        ProviderType.github).isSome = true := by
  refine ⟨⟨rfl, rfl, by decide⟩, ?_, ?_, ?_, ?_⟩
  · rw [convert_dict_skips_malformed_entries.1 dataC10 _ rfl]
    decide
  · rw [convert_dict_skips_malformed_entries.2.1 dataC10 _ rfl]
    decide
  · rw [convert_dict_skips_malformed_entries.2.2.1 dataC10 _ rfl (by decide)]
    decide
  · exact convert_dict_skips_malformed_entries.2.2.2 _ ProviderType.github
      { token := some "t1", host := none, user_id := none } (by decide)

end OpenHands
